import Mathlib

/-!
Verification of the admin_billdesk decision pipeline (pre-processing, engine
enrichment, post-processing summary) against its specification.

Embedding conventions:
* Python floats are modelled as exact rationals (`ℚ`); all amounts in the
  pipeline are decimal money values and the claims never hinge on binary
  floating-point rounding artifacts.
* A Python `dict` with string keys is modelled as an insertion-ordered
  association list; a possibly-missing key is an `Option` field.
* Python truthiness-based `x or d` idioms are modelled by the `pyOr*` helpers
  below (`None`, `0`, `""` and `[]` are falsy).
* `str.strip() / .lower() / .upper()` are the character-level `pyStrip` /
  `pyLower` / `pyUpper` below (the pipeline's strings are ASCII).
-/

namespace AdminBilldesk

/-- Python `a or d` on an optional numeric value: `None` and `0` are falsy. -/
def pyOrQ (a : Option ℚ) (d : ℚ) : ℚ :=
  match a with
  | some x => if x = 0 then d else x
  | none => d

/-- Python `a or d` on an optional string: `None` and `""` are falsy. -/
def pyOrStr (a : Option String) (d : String) : String :=
  match a with
  | some s => if s = "" then d else s
  | none => d

/-- Python `a or []` on an optional list: `None` and `[]` are both mapped to `[]`. -/
def pyOrList {α : Type} (a : Option (List α)) : List α :=
  match a with
  | some l => l
  | none => []

/-- Python `int()` on a rational: truncation toward zero. -/
def pyInt (q : ℚ) : ℤ :=
  Int.tdiv q.num (q.den : ℤ)

/-- Python `str.strip()`: drop leading and trailing whitespace (character-level,
so that proofs can evaluate it). -/
def pyStrip (s : String) : String :=
  String.mk (((s.data.dropWhile Char.isWhitespace).reverse.dropWhile
    Char.isWhitespace).reverse)

/-- Python `str.lower()` (the pipeline's strings are ASCII). -/
def pyLower (s : String) : String :=
  String.mk (s.data.map Char.toLower)

/-- Python `str.upper()` (the pipeline's strings are ASCII). -/
def pyUpper (s : String) : String :=
  String.mk (s.data.map Char.toUpper)

/-- Split a character list on a separator character (Python `str.split(sep)`
for a one-character separator). -/
def splitChars (sep : Char) : List Char → List (List Char)
  | [] => [[]]
  | c :: t =>
    let r := splitChars sep t
    if c = sep then [] :: r
    else
      match r with
      | h :: t' => (c :: h) :: t'
      | [] => [[c]]

/-- Numeric value of a list of decimal digit characters. -/
def charsToNat (l : List Char) : Nat :=
  l.foldl (fun n c => n * 10 + (c.toNat - 48)) 0

/-- Round half to even (the tie-breaking rule of Python `round()`), on an exact rational. -/
def roundHalfEven (q : ℚ) : ℤ :=
  let f := ⌊q⌋
  let r := q - (f : ℚ)
  if r < 1/2 then f
  else if (1/2 : ℚ) < r then f + 1
  else if f % 2 = 0 then f else f + 1

/-- Python `round(x, 2)` modelled on exact rationals. -/
def pyRound2 (q : ℚ) : ℚ :=
  ((roundHalfEven (q * 100) : ℤ) : ℚ) / 100

/-- Association-list lookup (`dict.get`), first binding wins. -/
def lookupA {α : Type} : List (String × α) → String → Option α
  | [], _ => none
  | (k', v) :: t, k => if k' = k then some v else lookupA t k

/-- Association-list assignment (`d[k] = v`): replace in place, else append. -/
def assocSet {α : Type} : List (String × α) → String → α → List (String × α)
  | [], k, v => [(k, v)]
  | (k', v') :: t, k, v => if k' = k then (k, v) :: t else (k', v') :: assocSet t k v

-- -----------------------------------------------------------------------------
-- Data model (entity/employee.py and the bill dicts consumed by preprocessing)
-- -----------------------------------------------------------------------------

/-- Validation sub-record of a bill; absent keys are `none`. -/
structure Validation where
  is_valid : Option Bool := none
  month_match : Option Bool := none
  name_match : Option Bool := none
  name_match_score : Option ℚ := none
  address_match : Option Bool := none
  address_match_score : Option ℚ := none
deriving Repr, DecidableEq

/-- One extracted bill record (external input of the decision pipeline).
Bill ids are modelled as strings, matching the `List[str]` annotation of
`DecisionGroup.valid_bills`. -/
structure Bill where
  id : String
  filename : Option String := none
  category : Option String := none
  date : Option String := none
  amount : Option ℚ := none
  reimbursable_amount : Option ℚ := none
  currency : Option String := none
  validation : Option Validation := none
deriving Repr, DecidableEq

/-- One `{bill_id, reason}` record as produced by preprocessing and enrichment. -/
structure ReasonEntry where
  bill_id : String
  reason : String
deriving Repr, DecidableEq

/-- entity/employee.py `DecisionGroup` (its `to_dict` exposes exactly these fields;
the optional tail fields are omitted from the dict when `None`, which reads back
as the same `Option`). -/
structure DecisionGroup where
  employee_id : String
  employee_name : String
  category : String
  date : Option String
  month : String
  valid_bills : List String
  invalid_bills : List String
  invalid_bill_reasons : List ReasonEntry
  daily_total : Option ℚ
  monthly_total : Option ℚ
  currency : String
  daily_limit : Option ℚ := none
  reimbursable_daily_total : Option ℚ := none
  daily_total_exceeds_limit : Option Bool := none
  rag_policy_context : Option String := none
deriving Repr, DecidableEq

/-- One save_data entry built by preprocessing (drives the file-copy step). -/
structure SaveEntry where
  employee_id : String
  employee_name : String
  category : String
  valid_files : List (Option String)
  invalid_files : List (Option String)
deriving Repr, DecidableEq

-- -----------------------------------------------------------------------------
-- commons/utils.py
-- -----------------------------------------------------------------------------

/-- commons/utils.py `bill_amount`: `reimbursable_amount or amount or 0` coerced to
float (the coercion is the identity on the modelled numeric values). -/
def bill_amount (b : Bill) : ℚ :=
  pyOrQ b.reimbursable_amount (pyOrQ b.amount 0)

/-- commons/utils.py `currency_from_bills`: first bill whose stripped currency is
non-empty; returns the stripped currency, else `none`. -/
def currency_from_bills : List Bill → Option String
  | [] => none
  | b :: rest =>
    let c := pyStrip (pyOrStr b.currency "")
    if c = "" then currency_from_bills rest else some c

/-- Helper: a non-empty all-digit character list of bounded length (what
`strptime` accepts for one `%d` / `%m` / `%Y` field). -/
def isDigits (l : List Char) (maxLen : Nat) : Bool :=
  !l.isEmpty && decide (l.length ≤ maxLen) && l.all Char.isDigit

/-- Gregorian leap year, as validated by `datetime.strptime`. -/
def isLeapYear (y : Nat) : Bool :=
  (y % 4 = 0 && decide (y % 100 ≠ 0)) || y % 400 = 0

/-- Number of days in a month, as validated by `datetime.strptime`. -/
def daysInMonth (y m : Nat) : Nat :=
  if m = 2 then (if isLeapYear y then 29 else 28)
  else if m = 4 ∨ m = 6 ∨ m = 9 ∨ m = 11 then 30
  else 31

/-- Zero-pad a natural number to the given width (`strftime` zero padding). -/
def padNum (n w : Nat) : String :=
  let s := toString n
  String.mk (List.replicate (w - s.length) '0') ++ s

/-- commons/utils.py `month_from_date_str`: parse `"DD/MM/YYYY"` with
`datetime.strptime(s.strip(), "%d/%m/%Y")` (1-2 digit day/month, 1-4 digit year,
calendar-validated) and emit `"YYYY-MM"` via `%Y-%m` (zero-padded, per CPython
on Linux); `None` on a falsy or unparseable input. -/
def month_from_date_str (date_str : String) : Option String :=
  if date_str = "" then none
  else
    match splitChars '/' (pyStrip date_str).data with
    | [ds, ms, ys] =>
      if isDigits ds 2 && isDigits ms 2 && isDigits ys 4 then
        let d := charsToNat ds
        let m := charsToNat ms
        let y := charsToNat ys
        if decide (1 ≤ m) && decide (m ≤ 12) && decide (1 ≤ d) &&
           decide (d ≤ daysInMonth y m) && decide (1 ≤ y) && decide (y ≤ 9999) then
          some (padNum y 4 ++ "-" ++ padNum m 2)
        else none
      else none
    | _ => none

/-- commons/utils.py `month_from_bills`: `YYYY-MM` from the first bill with a
truthy, parseable date; `"unknown"` otherwise. -/
def month_from_bills : List Bill → String
  | [] => "unknown"
  | b :: rest =>
    match b.date with
    | none => month_from_bills rest
    | some dstr =>
      match month_from_date_str dstr with
      | some m => m
      | none => month_from_bills rest

/-- Insertion-ordered dict update `totals[d] = totals.get(d, 0) + a`. -/
def updateTotal : List (String × ℚ) → String → ℚ → List (String × ℚ)
  | [], d, a => [(d, a)]
  | (k, v) :: t, d, a => if k = d then (k, v + a) :: t else (k, v) :: updateTotal t d a

/-- Accumulator form of the `daily_totals_from_bills` loop. -/
def daily_totals_aux (acc : List (String × ℚ)) : List Bill → List (String × ℚ)
  | [] => acc
  | b :: rest =>
    match b.date with
    | some d => daily_totals_aux (updateTotal acc d (bill_amount b)) rest
    | none => daily_totals_aux acc rest

/-- commons/utils.py `daily_totals_from_bills`: sum of `bill_amount` by date;
bills whose date is `None` are skipped entirely. -/
def daily_totals_from_bills (bills : List Bill) : List (String × ℚ) :=
  daily_totals_aux [] bills

-- -----------------------------------------------------------------------------
-- app/decision/preprocessing.py
-- -----------------------------------------------------------------------------

/-- preprocessing.py `_validation_to_reason`: short reason string from validation
flags. A missing or empty validation record yields `"Validation failed"` (the
empty record reaches the same result through the final join). `int(score)`
truncates toward zero (`pyInt`). -/
def validation_to_reason (validation : Option Validation) : String :=
  match validation with
  | none => "Validation failed"
  | some v =>
    let reasons : List String :=
      (if v.month_match.getD true = false then ["Month mismatch"] else []) ++
      (if v.name_match.getD true = false then
        (match v.name_match_score with
         | some score => ["Name mismatch (" ++ toString (pyInt score) ++ "%)"]
         | none => ["Name mismatch"])
       else []) ++
      (if v.address_match = some false then
        (match v.address_match_score with
         | some score => ["Address mismatch (" ++ toString (pyInt score) ++ "%)"]
         | none => ["Address mismatch"])
       else [])
    if reasons = [] then "Validation failed" else String.intercalate "; " reasons

/-- preprocessing.py `_invalid_bill_reasons_from_bills`. -/
def invalid_bill_reasons_from_bills (bills : List Bill) : List ReasonEntry :=
  bills.map (fun b => { bill_id := b.id, reason := validation_to_reason b.validation })

/-- preprocessing.py `_group_record`. -/
def group_record (emp_id emp_name category : String) (date : Option String)
    (month : String) (valid_bills invalid_bills : List Bill)
    (daily_total monthly_total : Option ℚ) (currency : String) : DecisionGroup :=
  { employee_id := emp_id
    employee_name := emp_name
    category := category
    date := date
    month := month
    valid_bills := valid_bills.map Bill.id
    invalid_bills := invalid_bills.map Bill.id
    invalid_bill_reasons := invalid_bill_reasons_from_bills invalid_bills
    daily_total := daily_total
    monthly_total := monthly_total
    currency := currency }

/-- preprocessing.py line 96: `valid_bills or (valid_bills + invalid_bills)`
(Python list truthiness: the fallback applies only when `valid_bills` is empty). -/
def bills_for_currency (valid_bills invalid_bills : List Bill) : List Bill :=
  if valid_bills.isEmpty then valid_bills ++ invalid_bills else valid_bills

/-- preprocessing.py line 97: `currency_from_bills(bills_for_currency) or "INR"`. -/
def group_currency_of (valid_bills invalid_bills : List Bill) : String :=
  pyOrStr (currency_from_bills (bills_for_currency valid_bills invalid_bills)) "INR"

/-- preprocessing.py `_groups_for_category`: one group per date for a `"meal"`
category with a non-empty daily-totals dict, else a single monthly group. -/
def groups_for_category (emp_id emp_name category : String)
    (valid_bills invalid_bills : List Bill) : List DecisionGroup :=
  let group_currency := group_currency_of valid_bills invalid_bills
  let monthlyGroup :=
    [group_record emp_id emp_name category none
      (month_from_bills (valid_bills ++ invalid_bills))
      valid_bills invalid_bills
      none (some ((valid_bills.map bill_amount).sum)) group_currency]
  if category = "meal" then
    let daily_totals := daily_totals_from_bills valid_bills
    if daily_totals.isEmpty then monthlyGroup
    else
      daily_totals.map (fun dt =>
        let date := dt.1
        let date_bills := valid_bills.filter (fun b => b.date = some date)
        let inv_for_date := invalid_bills.filter (fun b => b.date = some date)
        let month := (month_from_date_str date).getD (month_from_bills date_bills)
        let currency := pyOrStr (currency_from_bills date_bills) group_currency
        group_record emp_id emp_name category (some date) month
          date_bills inv_for_date (some dt.2) none currency)
  else monthlyGroup

/-- preprocessing.py `_save_entry`. -/
def save_entry (emp_id emp_name category : String)
    (valid_bills invalid_bills : List Bill) : SaveEntry :=
  { employee_id := emp_id
    employee_name := emp_name
    category := category
    valid_files := valid_bills.map Bill.filename
    invalid_files := invalid_bills.map Bill.filename }

/-- Insertion-ordered `dict.setdefault(cat, []).append(b)` grouping step. -/
def appendAssoc : List (String × List Bill) → String → Bill → List (String × List Bill)
  | [], k, b => [(k, [b])]
  | (k', l) :: t, k, b =>
    if k' = k then (k', l ++ [b]) :: t else (k', l) :: appendAssoc t k b

/-- preprocessing.py `prepare_groups` category partition (`category_groups`). -/
def groupByCategory (bills : List Bill) : List (String × List Bill) :=
  bills.foldl (fun acc b => appendAssoc acc (b.category.getD "unknown") b) []

/-- Truthiness of `b.get("validation", {}).get("is_valid")`. -/
def is_valid_bill (b : Bill) : Bool :=
  match b.validation with
  | some v => v.is_valid.getD false
  | none => false

/-- preprocessing.py `prepare_groups`. The employee key is modelled pre-split as
an `(employee_id, employee_name)` pair (`key.split("_", 1)`; a key without a
separator raises in Python and is outside the model). The loop-with-extend
accumulation is expressed as `List.flatMap`. -/
def prepare_groups (bills_map : List ((String × String) × List Bill)) :
    List DecisionGroup × List SaveEntry :=
  (bills_map.flatMap (fun e =>
      (groupByCategory e.2).flatMap (fun ce =>
        groups_for_category e.1.1 e.1.2 ce.1
          (ce.2.filter is_valid_bill)
          (ce.2.filter (fun b => !is_valid_bill b)))),
   bills_map.flatMap (fun e =>
      (groupByCategory e.2).map (fun ce =>
        save_entry e.1.1 e.1.2 ce.1
          (ce.2.filter is_valid_bill)
          (ce.2.filter (fun b => !is_valid_bill b)))))

-- -----------------------------------------------------------------------------
-- app/decision/engine.py
-- -----------------------------------------------------------------------------

/-- One `{bill_id, reason}` record as supplied by the generator (either field may
be missing). -/
structure GenReason where
  bill_id : Option String := none
  reason : Option String := none
deriving Repr, DecidableEq

/-- One parsed generator decision object: a JSON dict whose keys may all be
absent. The fields are the ones the decision schema requests plus
`parse_failed` (set on placeholders). -/
structure Item where
  decision : Option String := none
  employee_id : Option String := none
  employee_name : Option String := none
  category : Option String := none
  valid_bill_ids : Option (List String) := none
  invalid_bill_ids : Option (List String) := none
  invalid_bill_reasons : Option (List GenReason) := none
  claimed_amount : Option ℚ := none
  approved_amount : Option ℚ := none
  currency : Option String := none
  reasons : Option (List String) := none
  parse_failed : Option Bool := none
deriving Repr, DecidableEq

/-- One `{reason, bill_ids, count}` record of the error summary. -/
structure ErrorSummaryEntry where
  reason : String
  bill_ids : List String
  count : Nat
deriving Repr, DecidableEq

/-- Insertion-ordered grouping step of `_build_error_summary`. -/
def addToSummary : List ErrorSummaryEntry → ReasonEntry → List ErrorSummaryEntry
  | [], r => [{ reason := r.reason, bill_ids := [r.bill_id], count := 1 }]
  | e :: t, r =>
    if e.reason = r.reason then
      { e with bill_ids := e.bill_ids ++ [r.bill_id], count := e.count + 1 } :: t
    else e :: addToSummary t r

/-- engine.py `_build_error_summary`: group invalid bill reasons by identical
reason text (called only on the enriched reason list, whose records always
carry both fields). -/
def build_error_summary (l : List ReasonEntry) : List ErrorSummaryEntry :=
  l.foldl addToSummary []

/-- engine.py `CONFIDENCE_MANUAL_REVIEW_THRESHOLD = 0.5`. -/
def CONFIDENCE_MANUAL_REVIEW_THRESHOLD : ℚ := 1/2

/-- engine.py `_compute_confidence_score`, on the group's `to_dict()` view.
The decimal constants 0.25 / 0.35 / 0.30 / 0.10 are the exact rationals
1/4, 7/20, 3/10, 1/10. -/
def compute_confidence_score (g : DecisionGroup) : ℚ :=
  let score : ℚ := 1
  let month := pyLower (pyStrip g.month)
  let score := if month = "" ∨ month = "unknown" then score - 1/4 else score
  let category := pyLower (pyStrip g.category)
  let amt := if category = "meal" then g.daily_total else g.monthly_total
  let score := if amt = none ∨ amt = some 0 then score - 7/20 else score
  let score := if g.valid_bills.isEmpty then score - 3/10 else score
  let score :=
    if g.invalid_bills.isEmpty then score
    else score - (1/10) * min 1 ((g.invalid_bills.length : ℚ) / 3)
  max 0 (min 1 score)

/-- An enriched decision record: the generator item after `_enrich_decision_item`
mutated it in place. Fields the enrichment never touches (decision verdict,
employee id/name, reasons, parse_failed) pass through from the item. -/
structure Decision where
  decision : Option String
  employee_id : Option String
  employee_name : Option String
  reasons : Option (List String)
  parse_failed : Option Bool
  category : String
  currency : String
  daily_total : Option ℚ
  monthly_total : Option ℚ
  daily_limit : Option ℚ
  reimbursable_daily_total : Option ℚ
  daily_total_exceeds_limit : Option Bool
  claimed_amount : ℚ
  valid_bill_ids : Option (List String)
  invalid_bill_ids : Option (List String)
  approved_amount : ℚ
  month : String
  date : Option String
  invalid_bill_reasons : List ReasonEntry
  error_summary : List ErrorSummaryEntry
  confidence_score : ℚ
  manual_review : Bool
deriving Repr, DecidableEq

/-- Overlay step of the `reason_lookup` loop in `_enrich_decision_item`:
`if bid and r.get("reason"): reason_lookup[bid] = (r.get("reason") or "").strip()
or reason_lookup.get(bid)`. Values are `Option String` because the fallback
`reason_lookup.get(bid)` may itself be `None`. -/
def overlayReason (acc : List (String × Option String)) (r : GenReason) :
    List (String × Option String) :=
  match r.bill_id with
  | some bid =>
    if bid ≠ "" ∧ pyOrStr r.reason "" ≠ "" then
      let s := pyStrip (pyOrStr r.reason "")
      assocSet acc bid (if s = "" then (lookupA acc bid).join else some s)
    else acc
  | none => acc

/-- engine.py `_enrich_decision_item`, as a function from the parsed item and
the group's `to_dict()` to the mutated item. The generator item never carries
`daily_limit`-family keys, so the conditional copies reduce to copying the
group's `Option` fields; the `float()` coercions are the identity on the
modelled rationals, so their `except` branches are dead. -/
def enrich_decision_item (item : Item) (g : DecisionGroup) : Decision :=
  let category :=
    pyLower (pyStrip (if g.category = "" then pyOrStr item.category "unknown" else g.category))
  let currency := if g.currency = "" then "INR" else g.currency
  let claimed : ℚ :=
    if g.category = "meal" then pyOrQ g.daily_total 0 else pyOrQ g.monthly_total 0
  let isReject := pyUpper (pyOrStr item.decision "") = "REJECT"
  let valid_bill_ids : Option (List String) :=
    if isReject then some [] else item.valid_bill_ids
  let invalid_bill_ids : Option (List String) :=
    if isReject then some (pyOrList item.valid_bill_ids ++ pyOrList item.invalid_bill_ids)
    else item.invalid_bill_ids
  let approved : ℚ :=
    if isReject then 0
    else if g.category = "meal" then pyOrQ g.reimbursable_daily_total (pyOrQ g.daily_total 0)
    else pyOrQ g.monthly_total 0
  let base : List (String × Option String) :=
    g.invalid_bill_reasons.foldl (fun acc r => assocSet acc r.bill_id (some r.reason)) []
  let reason_lookup := (pyOrList item.invalid_bill_reasons).foldl overlayReason base
  let final_reasons : List ReasonEntry :=
    (pyOrList invalid_bill_ids).map (fun bid =>
      { bill_id := bid
        reason := pyOrStr (lookupA reason_lookup bid).join
                    "Rejected (no specific reason provided)" })
  let confidence := compute_confidence_score g
  { decision := item.decision
    employee_id := item.employee_id
    employee_name := item.employee_name
    reasons := item.reasons
    parse_failed := item.parse_failed
    category := category
    currency := currency
    daily_total := g.daily_total
    monthly_total := g.monthly_total
    daily_limit := g.daily_limit
    reimbursable_daily_total := g.reimbursable_daily_total
    daily_total_exceeds_limit := g.daily_total_exceeds_limit
    claimed_amount := claimed
    valid_bill_ids := valid_bill_ids
    invalid_bill_ids := invalid_bill_ids
    approved_amount := approved
    month := g.month
    date := g.date
    invalid_bill_reasons := final_reasons
    error_summary := build_error_summary final_reasons
    confidence_score := pyRound2 confidence
    manual_review := decide (confidence < CONFIDENCE_MANUAL_REVIEW_THRESHOLD) }

/-- engine.py `_make_parse_failed_placeholder`. -/
def make_parse_failed_placeholder (g : DecisionGroup) : Item :=
  { decision := some "REJECT"
    parse_failed := some true
    employee_id := some g.employee_id
    employee_name := some g.employee_name
    category := some g.category
    valid_bill_ids := some g.valid_bills
    invalid_bill_ids := some g.invalid_bills
    invalid_bill_reasons := some []
    claimed_amount := some 0
    approved_amount := some 0
    currency := some g.currency
    reasons := some ["Decision output parse failed; sent to manual review."] }

/-- Mutation `item["parse_failed"] = b` applied after enrichment. -/
def set_parse_failed (d : Decision) (b : Bool) : Decision :=
  { d with parse_failed := some b }

/-- The decision record emitted for a group with no usable generator item:
enriched placeholder with `parse_failed = True`. -/
def placeholder_decision (g : DecisionGroup) : Decision :=
  set_parse_failed (enrich_decision_item (make_parse_failed_placeholder g) g) true

/-- Main loop of `_parse_and_enrich_decisions` over `range(n_groups)`: the i-th
parsed item is enriched against the i-th group; groups beyond the parsed count
get placeholders; parsed items beyond the group count are dropped. -/
def enrich_against_groups : List DecisionGroup → List Item → List Decision
  | [], _ => []
  | g :: gs, [] => placeholder_decision g :: enrich_against_groups gs []
  | g :: gs, it :: its =>
    set_parse_failed (enrich_decision_item it g) false :: enrich_against_groups gs its

/-- engine.py `_parse_and_enrich_decisions`, factored over the result of
`_extract_decisions_from_llm_output` (`none` = total parse failure; the JSON
text extraction itself is not modelled, so theorems quantify over every result
it can return). Items are typed dicts here, so the `isinstance(item, dict)`
guard and the `try/except` around the (total) enrichment are dead branches. -/
def parse_and_enrich_decisions (raw : Option (List Item))
    (groups : List DecisionGroup) : List Decision :=
  match raw with
  | none => groups.map placeholder_decision
  | some items => enrich_against_groups groups items

-- -----------------------------------------------------------------------------
-- app/decision/postprocessing.py
-- -----------------------------------------------------------------------------

/-- Match the regex suffix `\s*\(\d+%\)$` on a reversed character list; returns
the remaining (still reversed) prefix when the suffix is present. -/
def stripScoreSuffixRev : List Char → Option (List Char)
  | ')' :: '%' :: rest =>
    let digits := rest.takeWhile Char.isDigit
    let rest' := rest.dropWhile Char.isDigit
    if digits.isEmpty then none
    else
      match rest' with
      | '(' :: rest'' => some (rest''.dropWhile Char.isWhitespace)
      | _ => none
  | _ => none

/-- postprocessing.py `normalize_reason`: strip a trailing `"(NN%)"` score
suffix (with surrounding whitespace) from the stripped reason text, and map a
falsy reason or a fully-stripped result to `"Other"`. -/
def normalize_reason (reason : String) : String :=
  if reason = "" then "Other"
  else
    let t := pyStrip reason
    let stripped :=
      match stripScoreSuffixRev t.data.reverse with
      | some rest => String.mk rest.reverse
      | none => t
    if stripped = "" then "Other" else stripped

/-- One summary cell of `build_summary_from_grouped` (per employee, category and
month). The source omits the `invalid_reasons` key when no reasons were
collected; here that is the empty list. -/
structure SummaryEntry where
  decision : String
  claimed_amount : ℚ
  approved_amount : ℚ
  currency : String
  valid_bill_count : Nat
  invalid_bill_count : Nat
  period_count : Nat
  invalid_reasons : List (String × Nat)
deriving Repr, DecidableEq

/-- Insertion-ordered `reason_counts[r] = reason_counts.get(r, 0) + c`. -/
def bumpCount : List (String × Nat) → String → Nat → List (String × Nat)
  | [], r, c => [(r, c)]
  | (k, v) :: t, r, c => if k = r then (k, v + c) :: t else (k, v) :: bumpCount t r c

/-- Stable insertion of one key-count pair in ascending key order
(`sorted(reason_counts.items())`; keys are distinct, so ordering by key alone
matches Python's tuple ordering). -/
def insertSortedReason (p : String × Nat) : List (String × Nat) → List (String × Nat)
  | [] => [p]
  | q :: t => if p.1 ≤ q.1 then p :: q :: t else q :: insertSortedReason p t

/-- Sorted view of the reason-count dict. -/
def sortReasons (l : List (String × Nat)) : List (String × Nat) :=
  l.foldr insertSortedReason []

/-- postprocessing.py `build_summary_from_grouped`, one (employee, category,
month) cell: totals, any-reject decision, first item's currency (`or "INR"`),
id-list length sums and the sorted, normalized reason counts.
`es.get("count") or len(es.get("bill_ids") or [])` falls back to the id-list
length when `count` is 0. -/
def build_summary_entry (items : List Decision) : SummaryEntry :=
  let total_claimed := (items.map (fun d => pyOrQ (some d.claimed_amount) 0)).sum
  let total_approved := (items.map (fun d => pyOrQ (some d.approved_amount) 0)).sum
  let any_reject := items.any (fun d => pyUpper (pyOrStr d.decision "") == "REJECT")
  let currency :=
    match items with
    | [] => "INR"
    | d :: _ => pyOrStr (some d.currency) "INR"
  let valid_count := (items.map (fun d => (pyOrList d.valid_bill_ids).length)).sum
  let invalid_count := (items.map (fun d => (pyOrList d.invalid_bill_ids).length)).sum
  let reason_counts :=
    items.foldl (fun acc d =>
      d.error_summary.foldl (fun acc' es =>
        let r := normalize_reason es.reason
        let c := if es.count = 0 then es.bill_ids.length else es.count
        bumpCount acc' r c) acc) []
  { decision := if any_reject then "REJECT" else "APPROVE"
    claimed_amount := pyRound2 total_claimed
    approved_amount := pyRound2 total_approved
    currency := currency
    valid_bill_count := valid_count
    invalid_bill_count := invalid_count
    period_count := items.length
    invalid_reasons := sortReasons reason_counts }

/-- The grouped decision map produced by `group_decisions`: employee key →
category → month → decisions, each level an insertion-ordered dict. -/
def Grouped : Type :=
  List (String × List (String × List (String × List Decision)))

/-- postprocessing.py `build_summary_from_grouped` over the whole grouped map. -/
def build_summary_from_grouped (grouped : Grouped) :
    List (String × List (String × List (String × SummaryEntry))) :=
  grouped.map (fun e =>
    (e.1, e.2.map (fun e2 =>
      (e2.1, e2.2.map (fun e3 => (e3.1, build_summary_entry e3.2))))))

-- -----------------------------------------------------------------------------
-- Spec-side definitions (stated from the specification's words, for comparison
-- with the source-side functions above)
-- -----------------------------------------------------------------------------

/-- Specification: the approved amount for a non-REJECT verdict is the group's
`reimbursable_daily_total` — falling back to the daily total — for the per-diem
category, and the group's `monthly_total` otherwise (Python `or` fallbacks). -/
def approved_amount_per_spec (g : DecisionGroup) : ℚ :=
  if g.category = "meal" then pyOrQ g.reimbursable_daily_total (pyOrQ g.daily_total 0)
  else pyOrQ g.monthly_total 0

/-- Specification: −0.25 if month is missing or "unknown". -/
def month_penalty (g : DecisionGroup) : ℚ :=
  if pyLower (pyStrip g.month) = "" ∨ pyLower (pyStrip g.month) = "unknown" then 1/4 else 0

/-- Specification: the group's relevant amount (daily total for the per-diem
category, monthly total otherwise). -/
def relevant_amount (g : DecisionGroup) : Option ℚ :=
  if pyLower (pyStrip g.category) = "meal" then g.daily_total else g.monthly_total

/-- Specification: −0.35 if the relevant amount is missing or zero. -/
def amount_penalty (g : DecisionGroup) : ℚ :=
  if relevant_amount g = none ∨ relevant_amount g = some 0 then 7/20 else 0

/-- Specification: −0.30 if the group has zero valid bills. -/
def valid_penalty (g : DecisionGroup) : ℚ :=
  if g.valid_bills.isEmpty then 3/10 else 0

/-- Specification: −0.10 × min(1, invalid_count/3) if there are invalid bills. -/
def invalid_penalty (g : DecisionGroup) : ℚ :=
  if g.invalid_bills.isEmpty then 0
  else (1/10) * min 1 ((g.invalid_bills.length : ℚ) / 3)

-- -----------------------------------------------------------------------------
-- Concrete inputs for witnesses and counterexamples
-- -----------------------------------------------------------------------------

/-- A meal group with a capped daily total (witness input). -/
def mealGroupW : DecisionGroup :=
  { employee_id := "E1", employee_name := "Alice", category := "meal"
    date := some "10/01/2025", month := "2025-01"
    valid_bills := ["b1"], invalid_bills := []
    invalid_bill_reasons := []
    daily_total := some 300, monthly_total := none, currency := "INR"
    daily_limit := some 250, reimbursable_daily_total := some 250
    daily_total_exceeds_limit := some true }

/-- A generator item claiming APPROVE with a wrong approved amount (witness input). -/
def approveItemW : Item :=
  { decision := some "APPROVE", valid_bill_ids := some ["b1"]
    invalid_bill_ids := some [], approved_amount := some 999999 }

/-- A commute group holding one valid bill (counterexample input for the REJECT
id-superset claim). -/
def commuteGroupC : DecisionGroup :=
  { employee_id := "E2", employee_name := "Bob", category := "commute"
    date := none, month := "2025-01"
    valid_bills := ["A"], invalid_bills := []
    invalid_bill_reasons := []
    daily_total := none, monthly_total := some 100, currency := "INR" }

/-- A generator REJECT item reporting empty id lists for `commuteGroupC`. -/
def rejectEmptyItemC : Item :=
  { decision := some "REJECT", valid_bill_ids := some [], invalid_bill_ids := some [] }

/-- A generator REJECT item reporting its own ids (witness input). -/
def rejectItemW : Item :=
  { decision := some "reject", valid_bill_ids := some ["x1"]
    invalid_bill_ids := some ["x2"], approved_amount := some 55 }

/-- A high-confidence commute group: known month, a valid bill, a non-zero
monthly total and no invalid bills (confidence 1.0). -/
def highConfidenceGroup : DecisionGroup :=
  { employee_id := "E3", employee_name := "Carol", category := "commute"
    date := none, month := "2025-02"
    valid_bills := ["c1"], invalid_bills := []
    invalid_bill_reasons := []
    daily_total := none, monthly_total := some 500, currency := "INR" }

/-- A group with unknown month, no valid bills and a zero amount (witness input
for the confidence bound). -/
def lowConfidenceGroup : DecisionGroup :=
  { employee_id := "E4", employee_name := "Dan", category := "commute"
    date := none, month := "unknown"
    valid_bills := [], invalid_bills := ["i1"]
    invalid_bill_reasons := [{ bill_id := "i1", reason := "Month mismatch" }]
    daily_total := none, monthly_total := some 0, currency := "INR" }

/-- The empty generator item (all keys absent). -/
def emptyItem : Item := {}

/-- A valid meal bill with no date (counterexample input: it is dropped from the
daily totals). -/
def datelessMealBill : Bill :=
  { id := "m0", category := some "meal", date := none, amount := some 5
    validation := some { is_valid := some true } }

/-- A valid, dated meal bill (witness input). -/
def datedMealBill : Bill :=
  { id := "m1", category := some "meal", date := some "10/01/2025"
    amount := some 100, validation := some { is_valid := some true } }

/-- A valid bill carrying no currency. -/
def noCurrencyBill : Bill :=
  { id := "v1", category := some "cab", amount := some 10
    validation := some { is_valid := some true } }

/-- An invalid bill carrying the currency "USD". -/
def usdInvalidBill : Bill :=
  { id := "i1", category := some "cab", amount := some 20, currency := some "USD"
    validation := some { is_valid := some false } }

/-- A one-employee bills map with a single valid, dateless cab bill (witness
input). -/
def cabBillsMap : List ((String × String) × List Bill) :=
  [(("E1", "Alice"),
    [{ id := "c1", category := some "cab"
       amount := some 200, validation := some { is_valid := some true } }])]

/-- The group `prepare_groups` builds from `cabBillsMap`. -/
def cabGroupW : DecisionGroup :=
  { employee_id := "E1", employee_name := "Alice", category := "cab"
    date := none, month := "unknown"
    valid_bills := ["c1"], invalid_bills := []
    invalid_bill_reasons := []
    daily_total := none, monthly_total := some 200, currency := "INR" }

/-- An enriched-shaped decision with an empty currency and a claimed amount of
1/3 (counterexample input for the summary-cell claim). -/
def oddDecision : Decision :=
  { decision := some "APPROVE", employee_id := some "E5", employee_name := some "Eve"
    reasons := none, parse_failed := some false
    category := "commute", currency := ""
    daily_total := none, monthly_total := some (1/3)
    daily_limit := none, reimbursable_daily_total := none
    daily_total_exceeds_limit := none
    claimed_amount := 1/3
    valid_bill_ids := some ["z1"], invalid_bill_ids := none
    approved_amount := 1/3
    month := "2025-03", date := none
    invalid_bill_reasons := [], error_summary := []
    confidence_score := 1, manual_review := false }

/-- An ordinary enriched decision (witness input for the summary-cell claim). -/
def plainDecision : Decision :=
  { decision := some "REJECT", employee_id := some "E6", employee_name := some "Fay"
    reasons := none, parse_failed := some false
    category := "commute", currency := "INR"
    daily_total := none, monthly_total := some 40
    daily_limit := none, reimbursable_daily_total := none
    daily_total_exceeds_limit := none
    claimed_amount := 40
    valid_bill_ids := some [], invalid_bill_ids := some ["y1", "y2"]
    approved_amount := 0
    month := "2025-03", date := none
    invalid_bill_reasons :=
      [{ bill_id := "y1", reason := "Name mismatch (50%)" },
       { bill_id := "y2", reason := "Name mismatch (28%)" }]
    error_summary :=
      [{ reason := "Name mismatch (50%)", bill_ids := ["y1"], count := 1 },
       { reason := "Name mismatch (28%)", bill_ids := ["y2"], count := 1 }]
    confidence_score := 1, manual_review := false }

/-- A one-cell grouped decision map around `plainDecision` (witness input). -/
def groupedW : Grouped :=
  [("E6_Fay", [("commute", [("2025-03", [plainDecision])])])]

-- -----------------------------------------------------------------------------
-- Helper lemmas
-- -----------------------------------------------------------------------------

theorem pyOrQ_some_zero (x : ℚ) : pyOrQ (some x) 0 = x := by
  by_cases h : x = 0 <;> simp [pyOrQ, h]

theorem enrich_manual_review (item : Item) (g : DecisionGroup) :
    (enrich_decision_item item g).manual_review =
      decide (compute_confidence_score g < CONFIDENCE_MANUAL_REVIEW_THRESHOLD) := rfl

theorem enrich_confidence (item : Item) (g : DecisionGroup) :
    (enrich_decision_item item g).confidence_score =
      pyRound2 (compute_confidence_score g) := rfl

theorem enrich_approved (item : Item) (g : DecisionGroup) :
    (enrich_decision_item item g).approved_amount =
      if pyUpper (pyOrStr item.decision "") = "REJECT" then 0
      else approved_amount_per_spec g := rfl

theorem enrich_ids (item : Item) (g : DecisionGroup) :
    (enrich_decision_item item g).valid_bill_ids =
      (if pyUpper (pyOrStr item.decision "") = "REJECT" then some [] else item.valid_bill_ids) ∧
    (enrich_decision_item item g).invalid_bill_ids =
      (if pyUpper (pyOrStr item.decision "") = "REJECT" then
        some (pyOrList item.valid_bill_ids ++ pyOrList item.invalid_bill_ids)
      else item.invalid_bill_ids) := ⟨rfl, rfl⟩

-- -----------------------------------------------------------------------------
-- C1: APPROVE amount recomputed from the group
-- -----------------------------------------------------------------------------

/-- C1: for every decision group and every parsed generator item whose
uppercased verdict is not REJECT, the enriched decision's `approved_amount` is
recomputed from the group alone — the group's `reimbursable_daily_total`
(falling back to the daily total) when the group's category is `"meal"`, and
the group's `monthly_total` otherwise — so the generator's `approved_amount`
value is never used (the right-hand side does not depend on the item). -/
theorem approve_amount_recomputed_from_group (item : Item) (g : DecisionGroup)
    (h : pyUpper (pyOrStr item.decision "") ≠ "REJECT") :
    (enrich_decision_item item g).approved_amount = approved_amount_per_spec g := by
  rw [enrich_approved, if_neg h]

theorem approve_amount_recomputed_from_group_witness :
    pyUpper (pyOrStr approveItemW.decision "") ≠ "REJECT" ∧
    (enrich_decision_item approveItemW mealGroupW).approved_amount = 250 :=
  ⟨by decide,
   by rw [approve_amount_recomputed_from_group approveItemW mealGroupW (by decide)]; decide⟩

-- -----------------------------------------------------------------------------
-- C2: REJECT branch id handling
-- -----------------------------------------------------------------------------

/-- C2 counterexample: for the group `commuteGroupC` (whose valid bills are
`["A"]`) and a generator REJECT item reporting empty id lists, the enriched
`invalid_bill_ids` is `[]` — it does not contain the group's bill id `"A"`, so
it is not a superset of the group's valid ∪ invalid ids as the claim states. -/
theorem reject_ids_counterexample :
    pyUpper (pyOrStr rejectEmptyItemC.decision "") = "REJECT" ∧
    commuteGroupC.valid_bills = ["A"] ∧
    (enrich_decision_item rejectEmptyItemC commuteGroupC).invalid_bill_ids = some [] ∧
    "A" ∉ pyOrList (enrich_decision_item rejectEmptyItemC commuteGroupC).invalid_bill_ids := by
  refine ⟨by decide, by decide, rfl, by decide⟩

/-- C2 amended: for every group and every item whose verdict is REJECT
(case-insensitively), enrichment empties `valid_bill_ids` and zeroes
`approved_amount`, and sets `invalid_bill_ids` to the concatenation of the
**item's** valid and invalid id lists (not the group's); the group's ids end up
there exactly when the item is the parse-failed placeholder, whose id lists are
copied from the group. -/
theorem reject_branch_forces_ids_and_zero_amount (item : Item) (g : DecisionGroup)
    (h : pyUpper (pyOrStr item.decision "") = "REJECT") :
    (enrich_decision_item item g).valid_bill_ids = some [] ∧
    (enrich_decision_item item g).approved_amount = 0 ∧
    (enrich_decision_item item g).invalid_bill_ids =
      some (pyOrList item.valid_bill_ids ++ pyOrList item.invalid_bill_ids) ∧
    (enrich_decision_item (make_parse_failed_placeholder g) g).invalid_bill_ids =
      some (g.valid_bills ++ g.invalid_bills) := by
  refine ⟨?_, ?_, ?_, ?_⟩
  · rw [(enrich_ids item g).1, if_pos h]
  · rw [enrich_approved, if_pos h]
  · rw [(enrich_ids item g).2, if_pos h]
  · have hp : pyUpper (pyOrStr (make_parse_failed_placeholder g).decision "") = "REJECT" := by
      show pyUpper (pyOrStr (some "REJECT") "") = "REJECT"
      decide
    rw [(enrich_ids (make_parse_failed_placeholder g) g).2, if_pos hp]
    rfl

theorem reject_branch_forces_ids_and_zero_amount_witness :
    pyUpper (pyOrStr rejectItemW.decision "") = "REJECT" ∧
    ((enrich_decision_item rejectItemW commuteGroupC).valid_bill_ids = some [] ∧
     (enrich_decision_item rejectItemW commuteGroupC).approved_amount = 0 ∧
     (enrich_decision_item rejectItemW commuteGroupC).invalid_bill_ids =
       some (pyOrList rejectItemW.valid_bill_ids ++ pyOrList rejectItemW.invalid_bill_ids) ∧
     (enrich_decision_item (make_parse_failed_placeholder commuteGroupC) commuteGroupC).invalid_bill_ids =
       some (commuteGroupC.valid_bills ++ commuteGroupC.invalid_bills)) :=
  ⟨by decide, reject_branch_forces_ids_and_zero_amount rejectItemW commuteGroupC (by decide)⟩

-- -----------------------------------------------------------------------------
-- C10: confidence and manual_review depend on the group alone
-- -----------------------------------------------------------------------------

/-- C10: the enriched decision's `confidence_score` and `manual_review` are
functions of the group alone: any two generator items enriched against the same
group carry identical values for both fields, so the generator's output cannot
influence them. -/
theorem confidence_independent_of_generator_item (g : DecisionGroup)
    (item1 item2 : Item) :
    (enrich_decision_item item1 g).confidence_score =
      (enrich_decision_item item2 g).confidence_score ∧
    (enrich_decision_item item1 g).manual_review =
      (enrich_decision_item item2 g).manual_review := by
  rw [enrich_confidence, enrich_confidence, enrich_manual_review, enrich_manual_review]
  exact ⟨rfl, rfl⟩

-- -----------------------------------------------------------------------------
-- C3: one decision record per group, placeholders for missing ones
-- -----------------------------------------------------------------------------

theorem enrich_against_groups_characterization (gs : List DecisionGroup)
    (its : List Item) :
    enrich_against_groups gs its =
      ((gs.take its.length).zip its).map
        (fun p => set_parse_failed (enrich_decision_item p.2 p.1) false)
      ++ (gs.drop its.length).map placeholder_decision := by
  induction gs generalizing its with
  | nil => simp [enrich_against_groups]
  | cons g gs ih =>
    cases its with
    | nil => simp [enrich_against_groups, ih]
    | cons it its' => simp [enrich_against_groups, ih]

theorem parse_and_enrich_length (raw : Option (List Item))
    (groups : List DecisionGroup) :
    (parse_and_enrich_decisions raw groups).length = groups.length := by
  cases raw with
  | none => simp [parse_and_enrich_decisions]
  | some items =>
    rw [parse_and_enrich_decisions, enrich_against_groups_characterization]
    simp
    omega

/-- C3: for every extraction result (the generator's raw output is abstracted by
the value `_extract_decisions_from_llm_output` produces from it) and every
non-empty group list, `_parse_and_enrich_decisions` returns exactly one decision
per group and never an empty list; on total parse failure every group gets the
enriched REJECT/parse_failed placeholder, and when fewer items parsed than
groups exist the result is the enriched items (i-th item against i-th group)
padded on the right with one placeholder per missing group. -/
theorem parse_and_enrich_always_one_decision_per_group
    (raw : Option (List Item)) (groups : List DecisionGroup) (h : groups ≠ []) :
    (parse_and_enrich_decisions raw groups).length = groups.length ∧
    parse_and_enrich_decisions raw groups ≠ [] ∧
    (raw = none →
      parse_and_enrich_decisions raw groups = groups.map placeholder_decision) ∧
    (∀ items, raw = some items →
      parse_and_enrich_decisions raw groups =
        ((groups.take items.length).zip items).map
          (fun p => set_parse_failed (enrich_decision_item p.2 p.1) false)
        ++ (groups.drop items.length).map placeholder_decision) := by
  refine ⟨parse_and_enrich_length raw groups, ?_, ?_, ?_⟩
  · intro hempty
    have := parse_and_enrich_length raw groups
    rw [hempty] at this
    exact h (List.length_eq_zero.mp this.symm)
  · intro hr
    subst hr
    rfl
  · intro items hr
    subst hr
    exact enrich_against_groups_characterization groups items

theorem parse_and_enrich_always_one_decision_per_group_witness :
    ([commuteGroupC] : List DecisionGroup) ≠ [] ∧
    (parse_and_enrich_decisions none [commuteGroupC]).length = 1 :=
  ⟨by simp,
   (parse_and_enrich_always_one_decision_per_group none [commuteGroupC] (by simp)).1⟩

-- -----------------------------------------------------------------------------
-- C4: parse-failed placeholders are not always flagged manual_review
-- -----------------------------------------------------------------------------

/-- C4 evaluation at the failing input: for a total parse failure over the
single high-confidence group (known month, one valid bill, non-zero total, no
invalid bills), the produced decision is the REJECT/parse_failed placeholder as
the claim says, but its group confidence is 1.0, so `manual_review` is false —
contradicting the claim (and the code's own log/reason strings, which say the
decision was "sent to manual review"). -/
theorem parse_failed_placeholder_manual_review_evaluation :
    parse_and_enrich_decisions none [highConfidenceGroup] =
      [placeholder_decision highConfidenceGroup] ∧
    (placeholder_decision highConfidenceGroup).decision = some "REJECT" ∧
    (placeholder_decision highConfidenceGroup).parse_failed = some true ∧
    compute_confidence_score highConfidenceGroup = 1 ∧
    (placeholder_decision highConfidenceGroup).manual_review = false := by
  have hconf : compute_confidence_score highConfidenceGroup = 1 := by
    simp +decide [compute_confidence_score, highConfidenceGroup]
  refine ⟨rfl, rfl, rfl, hconf, ?_⟩
  have hmr : (placeholder_decision highConfidenceGroup).manual_review =
      decide (compute_confidence_score highConfidenceGroup <
        CONFIDENCE_MANUAL_REVIEW_THRESHOLD) := rfl
  rw [hmr, hconf]
  simp [CONFIDENCE_MANUAL_REVIEW_THRESHOLD]
  norm_num

-- -----------------------------------------------------------------------------
-- C5: confidence score closed form, threshold, and the ≤ 0.10 bound
-- -----------------------------------------------------------------------------

/-- C5: the confidence score equals 1.0 minus the four spec penalties (0.25 for
a missing/"unknown" month, 0.35 for a missing/zero relevant amount, 0.30 for
zero valid bills, 0.10·min(1, invalid/3) for invalid bills), clamped to [0,1];
the enriched decision's `manual_review` holds exactly when the score is below
the fixed 0.5 threshold; and a group with unknown month, no valid bills and a
missing/zero amount scores at most 0.10 and is flagged for manual review. -/
theorem confidence_score_closed_form_and_threshold (g : DecisionGroup) (item : Item) :
    compute_confidence_score g =
      max 0 (min 1 (1 - month_penalty g - amount_penalty g - valid_penalty g
        - invalid_penalty g)) ∧
    ((enrich_decision_item item g).manual_review = true ↔
      compute_confidence_score g < 1/2) ∧
    (((pyLower (pyStrip g.month) = "" ∨ pyLower (pyStrip g.month) = "unknown") ∧
       g.valid_bills = [] ∧
       (relevant_amount g = none ∨ relevant_amount g = some 0)) →
      compute_confidence_score g ≤ 1/10 ∧
      (enrich_decision_item item g).manual_review = true) := by
  have hinv : 0 ≤ invalid_penalty g := by
    unfold invalid_penalty
    split_ifs
    · norm_num
    · exact mul_nonneg (by norm_num) (le_min (by norm_num) (by positivity))
  have hclosed : compute_confidence_score g =
      max 0 (min 1 (1 - month_penalty g - amount_penalty g - valid_penalty g
        - invalid_penalty g)) := by
    have hrel : (if pyLower (pyStrip g.category) = "meal" then g.daily_total
        else g.monthly_total) = relevant_amount g := rfl
    simp only [compute_confidence_score]
    rw [hrel]
    simp only [month_penalty, amount_penalty, valid_penalty, invalid_penalty]
    split_ifs <;> ring_nf
  have hiff : (enrich_decision_item item g).manual_review = true ↔
      compute_confidence_score g < 1/2 := by
    rw [enrich_manual_review]
    simp [CONFIDENCE_MANUAL_REVIEW_THRESHOLD]
  refine ⟨hclosed, hiff, ?_⟩
  rintro ⟨hm, hv, ha⟩
  have hmp : month_penalty g = 1/4 := by unfold month_penalty; rw [if_pos hm]
  have hap : amount_penalty g = 7/20 := by unfold amount_penalty; rw [if_pos ha]
  have hvp : valid_penalty g = 3/10 := by
    unfold valid_penalty
    rw [if_pos (by simp [hv])]
  have hle : compute_confidence_score g ≤ 1/10 := by
    rw [hclosed, hmp, hap, hvp]
    refine max_le (by norm_num) (le_trans (min_le_right _ _) (by linarith))
  exact ⟨hle, hiff.mpr (lt_of_le_of_lt hle (by norm_num))⟩

theorem confidence_score_closed_form_and_threshold_witness :
    ((pyLower (pyStrip lowConfidenceGroup.month) = "" ∨
      pyLower (pyStrip lowConfidenceGroup.month) = "unknown") ∧
     lowConfidenceGroup.valid_bills = [] ∧
     (relevant_amount lowConfidenceGroup = none ∨
      relevant_amount lowConfidenceGroup = some 0)) ∧
    (compute_confidence_score lowConfidenceGroup ≤ 1/10 ∧
     (enrich_decision_item emptyItem lowConfidenceGroup).manual_review = true) :=
  ⟨⟨Or.inr (by decide), rfl, Or.inr (by decide)⟩,
   (confidence_score_closed_form_and_threshold lowConfidenceGroup emptyItem).2.2
     ⟨Or.inr (by decide), rfl, Or.inr (by decide)⟩⟩

-- -----------------------------------------------------------------------------
-- C6: per-diem grouping partitions bills by date and preserves the total
-- -----------------------------------------------------------------------------

theorem updateTotal_keys (l : List (String × ℚ)) (d : String) (a : ℚ) :
    (updateTotal l d a).map Prod.fst =
      if d ∈ l.map Prod.fst then l.map Prod.fst else l.map Prod.fst ++ [d] := by
  induction l with
  | nil => simp [updateTotal]
  | cons p t ih =>
    obtain ⟨k, v⟩ := p
    by_cases h : k = d
    · subst h
      simp [updateTotal]
    · rw [updateTotal, if_neg h]
      simp only [List.map_cons, ih]
      by_cases h2 : d ∈ t.map Prod.fst
      · simp [h2, List.mem_cons, Ne.symm h]
      · simp [h2, List.mem_cons, Ne.symm h]

theorem updateTotal_sumVals (l : List (String × ℚ)) (d : String) (a : ℚ) :
    ((updateTotal l d a).map Prod.snd).sum = (l.map Prod.snd).sum + a := by
  induction l with
  | nil => simp [updateTotal]
  | cons p t ih =>
    obtain ⟨k, v⟩ := p
    by_cases h : k = d
    · subst h
      simp [updateTotal]
      ring
    · rw [updateTotal, if_neg h]
      simp [ih]
      ring

theorem updateTotal_keys_nodup (l : List (String × ℚ)) (d : String) (a : ℚ)
    (h : (l.map Prod.fst).Nodup) : ((updateTotal l d a).map Prod.fst).Nodup := by
  rw [updateTotal_keys]
  split_ifs with h2
  · exact h
  · simp [List.nodup_append, h, h2]

theorem updateTotal_mem_keys (l : List (String × ℚ)) (d : String) (a : ℚ)
    (e : String) :
    e ∈ (updateTotal l d a).map Prod.fst ↔ e ∈ l.map Prod.fst ∨ e = d := by
  rw [updateTotal_keys]
  split_ifs with h
  · constructor
    · exact Or.inl
    · rintro (h1 | rfl)
      · exact h1
      · exact h
  · simp [List.mem_append]

theorem daily_totals_aux_keys_nodup (bills : List Bill) :
    ∀ acc, (acc.map Prod.fst).Nodup →
      ((daily_totals_aux acc bills).map Prod.fst).Nodup := by
  induction bills with
  | nil =>
    intro acc h
    simpa [daily_totals_aux] using h
  | cons b rest ih =>
    intro acc h
    cases hb : b.date with
    | some d =>
      simp only [daily_totals_aux, hb]
      exact ih _ (updateTotal_keys_nodup _ _ _ h)
    | none =>
      simp only [daily_totals_aux, hb]
      exact ih _ h

theorem daily_totals_aux_sum (bills : List Bill) :
    ∀ acc, ((daily_totals_aux acc bills).map Prod.snd).sum =
      (acc.map Prod.snd).sum +
      ((bills.filter (fun b => b.date.isSome)).map bill_amount).sum := by
  induction bills with
  | nil =>
    intro acc
    simp [daily_totals_aux]
  | cons b rest ih =>
    intro acc
    cases hb : b.date with
    | some d =>
      simp only [daily_totals_aux, hb, List.filter_cons]
      rw [ih]
      simp [hb, updateTotal_sumVals]
      ring
    | none =>
      simp only [daily_totals_aux, hb, List.filter_cons]
      rw [ih]
      simp [hb]

theorem daily_totals_aux_mem_keys (bills : List Bill) :
    ∀ acc (e : String),
      (e ∈ (daily_totals_aux acc bills).map Prod.fst ↔
        e ∈ acc.map Prod.fst ∨ ∃ b ∈ bills, b.date = some e) := by
  induction bills with
  | nil =>
    intro acc e
    simp [daily_totals_aux]
  | cons b rest ih =>
    intro acc e
    cases hb : b.date with
    | some d =>
      simp only [daily_totals_aux, hb]
      rw [ih, updateTotal_mem_keys]
      simp only [List.mem_cons]
      constructor
      · rintro ((h1 | rfl) | ⟨b', hb', hd'⟩)
        · exact Or.inl h1
        · exact Or.inr ⟨b, Or.inl rfl, hb⟩
        · exact Or.inr ⟨b', Or.inr hb', hd'⟩
      · rintro (h1 | ⟨b', (rfl | hb'), hd'⟩)
        · exact Or.inl (Or.inl h1)
        · rw [hb] at hd'
          exact Or.inl (Or.inr (Option.some_injective _ hd').symm)
        · exact Or.inr ⟨b', hb', hd'⟩
    | none =>
      simp only [daily_totals_aux, hb]
      rw [ih]
      simp only [List.mem_cons]
      constructor
      · rintro (h1 | ⟨b', hb', hd'⟩)
        · exact Or.inl h1
        · exact Or.inr ⟨b', Or.inr hb', hd'⟩
      · rintro (h1 | ⟨b', (rfl | hb'), hd'⟩)
        · exact Or.inl h1
        · rw [hb] at hd'
          exact absurd hd' (by simp)
        · exact Or.inr ⟨b', hb', hd'⟩

theorem daily_totals_keys_nodup (bills : List Bill) :
    ((daily_totals_from_bills bills).map Prod.fst).Nodup :=
  daily_totals_aux_keys_nodup bills [] (by simp)

theorem daily_totals_sum (bills : List Bill) :
    ((daily_totals_from_bills bills).map Prod.snd).sum =
      ((bills.filter (fun b => b.date.isSome)).map bill_amount).sum := by
  simpa [daily_totals_from_bills] using daily_totals_aux_sum bills []

theorem daily_totals_mem_keys (bills : List Bill) (e : String) :
    e ∈ (daily_totals_from_bills bills).map Prod.fst ↔
      ∃ b ∈ bills, b.date = some e := by
  simpa [daily_totals_from_bills] using daily_totals_aux_mem_keys bills [] e

theorem groups_for_category_meal_eq (e n : String) (valid invalid : List Bill)
    (hne : ¬(daily_totals_from_bills valid).isEmpty) :
    groups_for_category e n "meal" valid invalid =
      (daily_totals_from_bills valid).map (fun dt =>
        group_record e n "meal" (some dt.1)
          ((month_from_date_str dt.1).getD
            (month_from_bills (valid.filter (fun b => b.date = some dt.1))))
          (valid.filter (fun b => b.date = some dt.1))
          (invalid.filter (fun b => b.date = some dt.1))
          (some dt.2) none
          (pyOrStr (currency_from_bills (valid.filter (fun b => b.date = some dt.1)))
            (group_currency_of valid invalid))) := by
  simp only [groups_for_category]
  rw [if_pos trivial, if_neg hne]

/-- C6 counterexample: a valid `"meal"` bill with no date (amount 5) is dropped
from the daily totals, so `_groups_for_category` emits a single monthly group
(date `none`) and the sum of `daily_total` over the groups is 0, not the bill's
amount 5 — the bill contributes to no date-keyed DecisionGroup and the claimed
sum equality fails. -/
theorem meal_dateless_bill_counterexample :
    ((groups_for_category "E" "N" "meal" [datelessMealBill] []).map
      DecisionGroup.date) = [none] ∧
    ((groups_for_category "E" "N" "meal" [datelessMealBill] []).map
      (fun g => pyOrQ g.daily_total 0)).sum = 0 ∧
    ([datelessMealBill].map bill_amount).sum = 5 ∧
    ((groups_for_category "E" "N" "meal" [datelessMealBill] []).map
        (fun g => pyOrQ g.daily_total 0)).sum ≠
      ([datelessMealBill].map bill_amount).sum := by
  have h1 : ((groups_for_category "E" "N" "meal" [datelessMealBill] []).map
      DecisionGroup.date) = [none] := by
    simp +decide [groups_for_category, daily_totals_from_bills, daily_totals_aux,
      datelessMealBill, group_record]
  have h2 : ((groups_for_category "E" "N" "meal" [datelessMealBill] []).map
      (fun g => pyOrQ g.daily_total 0)).sum = 0 := by
    simp +decide [groups_for_category, daily_totals_from_bills, daily_totals_aux,
      datelessMealBill, group_record, pyOrQ]
  have h3 : ([datelessMealBill].map bill_amount).sum = 5 := by
    simp +decide [datelessMealBill, bill_amount, pyOrQ]
  refine ⟨h1, h2, h3, ?_⟩
  rw [h2, h3]
  norm_num

/-- C6 amended: for one employee's `"meal"` bills in which every valid bill has
a date, the groups are keyed by pairwise-distinct dates, every valid bill's id
is listed in a group holding exactly its date, and the sum of `daily_total`
over all groups equals the sum of `bill_amount` (reimbursable-or-raw amount)
over all valid bills. (The original claim fails for valid bills without a
date — see the counterexample.) -/
theorem meal_grouping_partition_and_total (emp_id emp_name : String)
    (valid invalid : List Bill) (hdates : ∀ b ∈ valid, b.date ≠ none) :
    ((groups_for_category emp_id emp_name "meal" valid invalid).map
      DecisionGroup.date).Nodup ∧
    (∀ b ∈ valid, ∃ g ∈ groups_for_category emp_id emp_name "meal" valid invalid,
      g.date = b.date ∧ b.id ∈ g.valid_bills) ∧
    ((groups_for_category emp_id emp_name "meal" valid invalid).map
      (fun g => pyOrQ g.daily_total 0)).sum = (valid.map bill_amount).sum := by
  by_cases hv : valid = []
  · subst hv
    refine ⟨?_, ?_, ?_⟩
    · simp [groups_for_category, daily_totals_from_bills, daily_totals_aux]
    · intro b hb
      exact absurd hb (by simp)
    · simp [groups_for_category, daily_totals_from_bills, daily_totals_aux,
        group_record, pyOrQ]
  · have hne : ¬(daily_totals_from_bills valid).isEmpty := by
      obtain ⟨b0, hb0⟩ := List.exists_mem_of_ne_nil valid hv
      obtain ⟨d0, hd0⟩ := Option.ne_none_iff_exists'.mp (hdates b0 hb0)
      intro hemp
      have hk : d0 ∈ (daily_totals_from_bills valid).map Prod.fst :=
        (daily_totals_mem_keys valid d0).mpr ⟨b0, hb0, hd0⟩
      rw [List.isEmpty_iff.mp hemp] at hk
      exact absurd hk (by simp)
    rw [groups_for_category_meal_eq emp_id emp_name valid invalid hne]
    refine ⟨?_, ?_, ?_⟩
    · rw [List.map_map]
      have hc : (DecisionGroup.date ∘ (fun dt : String × ℚ =>
          group_record emp_id emp_name "meal" (some dt.1)
            ((month_from_date_str dt.1).getD
              (month_from_bills (valid.filter (fun b => b.date = some dt.1))))
            (valid.filter (fun b => b.date = some dt.1))
            (invalid.filter (fun b => b.date = some dt.1))
            (some dt.2) none
            (pyOrStr (currency_from_bills (valid.filter (fun b => b.date = some dt.1)))
              (group_currency_of valid invalid)))) =
          (fun dt : String × ℚ => some dt.1) := rfl
      rw [hc, show (fun dt : String × ℚ => some dt.1) =
        (some ∘ Prod.fst : String × ℚ → Option String) from rfl, ← List.map_map]
      exact (daily_totals_keys_nodup valid).map (Option.some_injective _)
    · intro b hb
      obtain ⟨d0, hd0⟩ := Option.ne_none_iff_exists'.mp (hdates b hb)
      have hk : d0 ∈ (daily_totals_from_bills valid).map Prod.fst :=
        (daily_totals_mem_keys valid d0).mpr ⟨b, hb, hd0⟩
      obtain ⟨p, hp, hp1⟩ := List.mem_map.mp hk
      refine ⟨_, List.mem_map_of_mem _ hp, ?_, ?_⟩
      · simp only [group_record]
        rw [hp1, hd0]
      · simp only [group_record]
        refine List.mem_map_of_mem Bill.id ?_
        rw [List.mem_filter]
        refine ⟨hb, ?_⟩
        rw [hp1, hd0]
        simp
    · rw [List.map_map]
      have hc : ((fun g => pyOrQ g.daily_total 0) ∘ (fun dt : String × ℚ =>
          group_record emp_id emp_name "meal" (some dt.1)
            ((month_from_date_str dt.1).getD
              (month_from_bills (valid.filter (fun b => b.date = some dt.1))))
            (valid.filter (fun b => b.date = some dt.1))
            (invalid.filter (fun b => b.date = some dt.1))
            (some dt.2) none
            (pyOrStr (currency_from_bills (valid.filter (fun b => b.date = some dt.1)))
              (group_currency_of valid invalid)))) =
          (fun dt : String × ℚ => pyOrQ (some dt.2) 0) := rfl
      rw [hc]
      have hmap : (daily_totals_from_bills valid).map
          (fun dt : String × ℚ => pyOrQ (some dt.2) 0) =
          (daily_totals_from_bills valid).map Prod.snd := by
        apply List.map_congr_left
        intro p _
        exact pyOrQ_some_zero p.2
      rw [hmap, daily_totals_sum]
      have hfil : valid.filter (fun b => b.date.isSome) = valid :=
        List.filter_eq_self.mpr (fun b hb => by
          simp [Option.isSome_iff_ne_none, hdates b hb])
      rw [hfil]

theorem meal_grouping_partition_and_total_witness :
    (∀ b ∈ [datedMealBill], b.date ≠ none) ∧
    ((groups_for_category "E" "N" "meal" [datedMealBill] []).map
      (fun g => pyOrQ g.daily_total 0)).sum = ([datedMealBill].map bill_amount).sum :=
  ⟨by decide,
   (meal_grouping_partition_and_total "E" "N" [datedMealBill] [] (by decide)).2.2⟩

-- -----------------------------------------------------------------------------
-- C7: group currency scans valid bills only (when any exist)
-- -----------------------------------------------------------------------------

/-- C7 counterexample: with one valid bill carrying no currency and one invalid
bill carrying "USD", the claim's scan (valid bills first, then all bills) would
find "USD", but the code resolves the group currency from the valid bills alone
(because `valid_bills or (valid_bills + invalid_bills)` picks the non-empty
valid list) and falls back to the default "INR". -/
theorem currency_invalid_bill_ignored_counterexample :
    group_currency_of [noCurrencyBill] [usdInvalidBill] = "INR" ∧
    pyOrStr (currency_from_bills ([noCurrencyBill] ++ [usdInvalidBill])) "INR" = "USD" ∧
    group_currency_of [noCurrencyBill] [usdInvalidBill] ≠ "USD" := by
  refine ⟨by decide, by decide, by decide⟩

/-- C7 amended: the group currency is the first non-empty (stripped) currency
among the valid bills when at least one valid bill exists, and among the
invalid bills only when there are no valid bills; it defaults to "INR" when the
scanned list yields nothing. Invalid bills are never consulted while a valid
bill exists. -/
theorem group_currency_scans_valid_else_all (valid invalid : List Bill) :
    group_currency_of valid invalid =
      pyOrStr (currency_from_bills (if valid.isEmpty then invalid else valid)) "INR" := by
  cases valid with
  | nil => simp [group_currency_of, bills_for_currency]
  | cons b t => simp [group_currency_of, bills_for_currency]

-- -----------------------------------------------------------------------------
-- C8: exactly one of daily_total / monthly_total is set
-- -----------------------------------------------------------------------------

theorem groups_for_category_total_shape (e n c : String) (valid invalid : List Bill)
    (g : DecisionGroup) (hg : g ∈ groups_for_category e n c valid invalid) :
    (g.daily_total = none ∧ g.monthly_total.isSome) ∨
    (g.daily_total.isSome ∧ g.monthly_total = none) := by
  simp only [groups_for_category] at hg
  split at hg
  · split at hg
    · simp only [List.mem_singleton] at hg
      subst hg
      simp [group_record]
    · obtain ⟨dt, _, hdt⟩ := List.mem_map.mp hg
      subst hdt
      simp [group_record]
  · simp only [List.mem_singleton] at hg
    subst hg
    simp [group_record]

/-- C8: every DecisionGroup produced by `prepare_groups` has exactly one of
`daily_total` / `monthly_total` non-null — per-date meal groups carry a
`daily_total` and a null `monthly_total`, every other group a `monthly_total`
and a null `daily_total`. -/
theorem groups_have_exactly_one_total
    (bills_map : List ((String × String) × List Bill)) (g : DecisionGroup)
    (hg : g ∈ (prepare_groups bills_map).1) :
    (g.daily_total = none ∧ g.monthly_total.isSome) ∨
    (g.daily_total.isSome ∧ g.monthly_total = none) := by
  simp only [prepare_groups, List.mem_flatMap] at hg
  obtain ⟨e, _, ce, _, hmem⟩ := hg
  exact groups_for_category_total_shape _ _ _ _ _ g hmem

theorem groups_have_exactly_one_total_witness :
    cabGroupW ∈ (prepare_groups cabBillsMap).1 ∧
    (cabGroupW.daily_total = none ∧ cabGroupW.monthly_total.isSome ∨
     cabGroupW.daily_total.isSome ∧ cabGroupW.monthly_total = none) := by
  have heq : (prepare_groups cabBillsMap).1 = [cabGroupW] := by
    simp +decide [prepare_groups, cabBillsMap, groupByCategory, appendAssoc,
      is_valid_bill, groups_for_category, group_currency_of, bills_for_currency,
      currency_from_bills, daily_totals_from_bills, daily_totals_aux,
      month_from_bills, pyStrip, pyOrStr, group_record,
      invalid_bill_reasons_from_bills, bill_amount, pyOrQ, cabGroupW]
  have hmem : cabGroupW ∈ (prepare_groups cabBillsMap).1 := by
    rw [heq]
    exact List.mem_singleton.mpr rfl
  exact ⟨hmem, groups_have_exactly_one_total cabBillsMap cabGroupW hmem⟩

-- -----------------------------------------------------------------------------
-- C9: summary cell fields
-- -----------------------------------------------------------------------------

theorem lookupA_map {α β : Type} (f : α → β) (l : List (String × α)) (k : String) :
    lookupA (l.map (fun e => (e.1, f e.2))) k = (lookupA l k).map f := by
  induction l with
  | nil => rfl
  | cons e t ih =>
    obtain ⟨k', v⟩ := e
    by_cases h : k' = k
    · simp [lookupA, h]
    · simp [lookupA, h, ih]

/-- C9 counterexample: `build_summary_from_grouped`'s cell entry does not always
carry the first item's currency nor the exact sum of claimed amounts — for a
single item with empty currency and claimed amount 1/3, the entry currency
falls back to "INR" (Python `or "INR"`) and the claimed total is rounded to two
decimals (33/100 ≠ 1/3). -/
theorem summary_currency_rounding_counterexample :
    (build_summary_entry [oddDecision]).currency = "INR" ∧
    oddDecision.currency = "" ∧
    (build_summary_entry [oddDecision]).currency ≠ oddDecision.currency ∧
    (build_summary_entry [oddDecision]).claimed_amount = 33/100 ∧
    ([oddDecision].map Decision.claimed_amount).sum = 1/3 ∧
    (build_summary_entry [oddDecision]).claimed_amount ≠
      ([oddDecision].map Decision.claimed_amount).sum := by
  have hcur : (build_summary_entry [oddDecision]).currency = "INR" := by
    simp [build_summary_entry, oddDecision, pyOrStr]
  have hsum : ([oddDecision].map Decision.claimed_amount).sum = 1/3 := by
    simp [oddDecision]
  have hcl : (build_summary_entry [oddDecision]).claimed_amount = 33/100 := by
    show pyRound2 ((([oddDecision]).map (fun d => pyOrQ (some d.claimed_amount) 0)).sum) = 33/100
    rw [show (([oddDecision]).map (fun d => pyOrQ (some d.claimed_amount) 0)).sum
        = 1/3 by simp [oddDecision, pyOrQ_some_zero]]
    rw [pyRound2, roundHalfEven]
    norm_num
  refine ⟨hcur, rfl, by rw [hcur]; decide, hcl, hsum, by rw [hcl, hsum]; norm_num⟩

/-- C9 amended: for every grouped decision map and every (employee, category,
month) cell with a non-empty item list, `build_summary_from_grouped` places
`build_summary_entry items` at the same keys, and that entry's decision is
"REJECT" exactly when some item's verdict is (case-insensitively) REJECT and
"APPROVE" otherwise; its claimed and approved amounts are the sums of the
items' amounts **rounded to two decimals**; its currency is the first item's
when that is non-empty and "INR" otherwise; and its valid/invalid bill counts
are the sums of the items' id-list lengths. -/
theorem summary_cell_fields (grouped : Grouped) (name cat month : String)
    (byCat : List (String × List (String × List Decision)))
    (byMonth : List (String × List Decision)) (items : List Decision)
    (h1 : lookupA grouped name = some byCat)
    (h2 : lookupA byCat cat = some byMonth)
    (h3 : lookupA byMonth month = some items)
    (h4 : items ≠ []) :
    (∃ sc, lookupA (build_summary_from_grouped grouped) name = some sc ∧
      ∃ sm, lookupA sc cat = some sm ∧
        lookupA sm month = some (build_summary_entry items)) ∧
    ((build_summary_entry items).decision = "REJECT" ↔
      ∃ d ∈ items, pyUpper (pyOrStr d.decision "") = "REJECT") ∧
    ((build_summary_entry items).decision = "REJECT" ∨
      (build_summary_entry items).decision = "APPROVE") ∧
    (build_summary_entry items).claimed_amount =
      pyRound2 ((items.map Decision.claimed_amount).sum) ∧
    (build_summary_entry items).approved_amount =
      pyRound2 ((items.map Decision.approved_amount).sum) ∧
    (∀ d0 rest, items = d0 :: rest →
      (build_summary_entry items).currency =
        (if d0.currency = "" then "INR" else d0.currency)) ∧
    (build_summary_entry items).valid_bill_count =
      (items.map (fun d => (pyOrList d.valid_bill_ids).length)).sum ∧
    (build_summary_entry items).invalid_bill_count =
      (items.map (fun d => (pyOrList d.invalid_bill_ids).length)).sum ∧
    (build_summary_entry items).period_count = items.length := by
  refine ⟨?_, ?_, ?_, ?_, ?_, ?_, rfl, rfl, rfl⟩
  · refine ⟨byCat.map (fun e2 => (e2.1, e2.2.map (fun e3 => (e3.1, build_summary_entry e3.2)))),
      ?_, byMonth.map (fun e3 => (e3.1, build_summary_entry e3.2)), ?_, ?_⟩
    · simp only [build_summary_from_grouped]
      rw [lookupA_map, h1]
      rfl
    · rw [lookupA_map, h2]
      rfl
    · rw [lookupA_map, h3]
      rfl
  · show (if items.any (fun d => pyUpper (pyOrStr d.decision "") == "REJECT")
        then "REJECT" else "APPROVE") = "REJECT" ↔ _
    by_cases hany : items.any (fun d => pyUpper (pyOrStr d.decision "") == "REJECT")
    · rw [if_pos hany]
      simp only [List.any_eq_true, beq_iff_eq] at hany
      exact ⟨fun _ => hany, fun _ => rfl⟩
    · rw [if_neg hany]
      simp only [List.any_eq_true, beq_iff_eq] at hany
      constructor
      · intro habs
        exact absurd habs (by decide)
      · intro hex
        exact absurd hex hany
  · by_cases hany : items.any (fun d => pyUpper (pyOrStr d.decision "") == "REJECT")
    · refine Or.inl ?_
      show (if items.any (fun d => pyUpper (pyOrStr d.decision "") == "REJECT")
        then "REJECT" else "APPROVE") = "REJECT"
      rw [if_pos hany]
    · refine Or.inr ?_
      show (if items.any (fun d => pyUpper (pyOrStr d.decision "") == "REJECT")
        then "REJECT" else "APPROVE") = "APPROVE"
      rw [if_neg hany]
  · show pyRound2 ((items.map (fun d => pyOrQ (some d.claimed_amount) 0)).sum) = _
    rw [show items.map (fun d => pyOrQ (some d.claimed_amount) 0)
        = items.map Decision.claimed_amount from
      List.map_congr_left (fun d _ => pyOrQ_some_zero d.claimed_amount)]
  · show pyRound2 ((items.map (fun d => pyOrQ (some d.approved_amount) 0)).sum) = _
    rw [show items.map (fun d => pyOrQ (some d.approved_amount) 0)
        = items.map Decision.approved_amount from
      List.map_congr_left (fun d _ => pyOrQ_some_zero d.approved_amount)]
  · rintro d0 rest rfl
    show pyOrStr (some d0.currency) "INR" = _
    rfl

theorem summary_cell_fields_witness :
    (lookupA groupedW "E6_Fay" = some [("commute", [("2025-03", [plainDecision])])] ∧
     lookupA [("commute", [("2025-03", [plainDecision])])] "commute" =
       some [("2025-03", [plainDecision])] ∧
     lookupA [("2025-03", [plainDecision])] "2025-03" = some [plainDecision] ∧
     ([plainDecision] : List Decision) ≠ []) ∧
    (build_summary_entry [plainDecision]).period_count = [plainDecision].length ∧
    (∃ sc, lookupA (build_summary_from_grouped groupedW) "E6_Fay" = some sc ∧
      ∃ sm, lookupA sc "commute" = some sm ∧
        lookupA sm "2025-03" = some (build_summary_entry [plainDecision])) :=
  ⟨⟨rfl, rfl, rfl, by simp⟩,
   (summary_cell_fields groupedW "E6_Fay" "commute" "2025-03"
     [("commute", [("2025-03", [plainDecision])])] [("2025-03", [plainDecision])]
     [plainDecision] rfl rfl rfl (by simp)).2.2.2.2.2.2.2.2,
   (summary_cell_fields groupedW "E6_Fay" "commute" "2025-03"
     [("commute", [("2025-03", [plainDecision])])] [("2025-03", [plainDecision])]
     [plainDecision] rfl rfl rfl (by simp)).1⟩

end AdminBilldesk
